import Mathlib

/-!
Shallow embedding of `utils_nlp/dataset/bbc_hindi.py`: downloading,
extracting and reading the BBC Hindi news corpus, label encoding,
sub-sampling and preprocessing.  External collaborators (the download
helper, the tar extractor, the CSV reader, the transformer processor and
the global random source behind unseeded `DataFrame.sample`) are modelled
as an explicit environment, and observable side effects (collaborator
calls and log output) as an event trace returned next to the result.
Python floats used as sample ratios are modelled as exact fractions, and
fallible calls return `Except`.
-/

namespace BbcHindi

/-- Exact fraction `num / den` standing for a Python float sample ratio;
theorems assume `0 < den`. -/
structure Frac where
  num : Int
  den : Int
deriving DecidableEq, Repr

/-- Comparison of fractions by cross multiplication (for positive
denominators it is the numeric order). -/
def Frac.lt (a b : Frac) : Prop := a.num * b.den < b.num * a.den

instance : LT Frac := ⟨Frac.lt⟩

instance (a b : Frac) : Decidable (a < b) :=
  inferInstanceAs (Decidable (a.num * b.den < b.num * a.den))

/-- The ratio `1.0`. -/
def Frac.one : Frac := ⟨1, 1⟩

/-- The ratio `0`. -/
def Frac.zero : Frac := ⟨0, 1⟩

/-- Multiply a ratio by a natural number (a row count). -/
def Frac.mulNat (x : Frac) (n : Nat) : Frac := ⟨x.num * n, x.den⟩

/-- Printing of a ratio, standing for Python string formatting of the
float. -/
def Frac.toStr (x : Frac) : String := toString x.num ++ "/" ++ toString x.den

/-- Modelled from Python's built-in `round` (round half to even) applied
to the exact value `x.num / x.den`; pandas `DataFrame.sample(frac=...)`
uses it to turn `frac * n` into a row count.  Meaningful for `0 < x.den`. -/
def pythonRound (x : Frac) : Int :=
  if 2 * x.num.emod x.den < x.den then x.num.ediv x.den
  else if x.den < 2 * x.num.emod x.den then x.num.ediv x.den + 1
  else if x.num.ediv x.den % 2 = 0 then x.num.ediv x.den
  else x.num.ediv x.den + 1

/-- A data-frame row: column 0 is the label, column 1 the text. -/
abbrev Row := String × String

/-- Modelled from pandas `DataFrame.sample(frac=frac)` followed by
`reset_index(drop=True)`: keep `round(frac * n)` rows drawn at random,
here the first rows of the permutation produced by the ambient random
source. -/
def sampleFrame (shuffle : List Row → List Row) (frac : Frac) (rows : List Row) : List Row :=
  (shuffle rows).take (pythonRound (frac.mulNat rows.length)).toNat

/-- Byte-wise order on characters, used to sort label classes. -/
def lexLe : List Char → List Char → Bool
  | [], _ => true
  | _ :: _, [] => false
  | a :: as, b :: bs =>
    if a.val.toNat < b.val.toNat then true
    else if b.val.toNat < a.val.toNat then false
    else lexLe as bs

/-- Lexicographic order on strings (computable stand-in for numpy's string
sort inside `np.unique`). -/
def strLeB (a b : String) : Bool := lexLe a.data b.data

/-- Insert a string into a sorted list of strings. -/
def insertSorted (x : String) : List String → List String
  | [] => [x]
  | y :: ys => if strLeB x y then x :: y :: ys else y :: insertSorted x ys

/-- Insertion sort of strings. -/
def sortStrings (l : List String) : List String := l.foldr insertSorted []

/-- Modelled from the spec: the sklearn `LabelEncoder`, a "bidirectional
mapping between category strings and integer IDs"; `fit` stores the sorted
distinct labels seen as `classes_`. -/
structure LabelEncoder where
  classes : List String
deriving DecidableEq, Repr

/-- `LabelEncoder.fit`: the classes are the sorted distinct values of the
fitted column (`np.unique`). -/
def LabelEncoder.fit (labels : List String) : LabelEncoder :=
  ⟨sortStrings labels.dedup⟩

/-- Index of the first occurrence of a string in a list. -/
def idxOfStr (v : String) : List String → Option Nat
  | [] => none
  | c :: cs => if c = v then some 0 else (idxOfStr v cs).map (fun i => i + 1)

/-- Encode one label value as its class index; `none` models the
`ValueError` sklearn raises on a label unseen during fit. -/
def LabelEncoder.transform1 (e : LabelEncoder) (v : String) : Option Nat :=
  idxOfStr v e.classes

/-- `LabelEncoder.transform` on a column of label values (all-or-nothing,
as sklearn raises on the first unseen label). -/
def LabelEncoder.transform (e : LabelEncoder) : List String → Option (List Nat)
  | [] => some []
  | v :: vs =>
    match e.transform1 v, e.transform vs with
    | some i, some is => some (i :: is)
    | _, _ => none

/-- `LabelEncoder.inverse_transform`: map class indices back to label
values; `none` models the error raised on an out-of-range ID. -/
def LabelEncoder.inverse_transform (e : LabelEncoder) : List Nat → Option (List String)
  | [] => some []
  | i :: is =>
    match e.classes[i]?, e.inverse_transform is with
    | some v, some vs => some (v :: vs)
    | _, _ => none

/-- `get_label_values` (bbc_hindi.py lines 181-193): recover the label
values from label IDs through the fitted encoder. -/
def get_label_values (label_encoder : LabelEncoder) (label_ids : List Nat) : Option (List String) :=
  label_encoder.inverse_transform label_ids

/-- A Python exception: the `ValueError` raised in this file, or any
exception raised by a collaborator. -/
inductive PyError where
  | valueError (msg : String)
  | external (msg : String)
deriving DecidableEq, Repr

/-- The parsing options handed to `pandas.read_csv`. -/
structure CsvConfig where
  sep : String
  encoding : String
  header : Option Nat
deriving DecidableEq, Repr

/-- Observable side effects of the pipeline: collaborator calls and log
output, in order. -/
inductive Event where
  | download (url file dir : String)
  | extractArchive (path dest : String)
  | readCsv (path : String) (cfg : CsvConfig)
  | fitEncoder (labels : List String)
  | logWarning (msg : String)
  | logError (msg : String)
  | preprocessCall (texts : List String) (labels : List Nat) (max_len : Nat)
deriving DecidableEq, Repr

/-- `true` exactly on CSV-read events. -/
def Event.isRead : Event → Bool
  | .readCsv _ _ => true
  | _ => false

/-- The collaborators of `bbc_hindi.py` as an explicit environment:
`maybe_download`, `tarfile` extraction, `pandas.read_csv` (a row is the
column-0 label with the column-1 text), the global numpy random source
behind unseeded `DataFrame.sample` (as a permutation of the rows), and the
transformer `Processor` (its construction arguments together with a
`preprocess` call).  `D` is the collaborator-owned `TensorDataset` type. -/
structure Env (D : Type) where
  download : String → String → String → Except PyError Unit
  extract : String → String → Except PyError Unit
  readCsv : String → CsvConfig → Except PyError (List Row)
  shuffle : List Row → List Row
  preprocess : String → Bool → String → List String → List Nat → Nat → Except PyError D

instance {ε α : Type} [DecidableEq ε] [DecidableEq α] : DecidableEq (Except ε α) := fun a b =>
  match a, b with
  | .ok x, .ok y =>
    if h : x = y then isTrue (h ▸ rfl) else isFalse (fun hh => h (by cases hh; rfl))
  | .error x, .error y =>
    if h : x = y then isTrue (h ▸ rfl) else isFalse (fun hh => h (by cases hh; rfl))
  | .ok _, .error _ => isFalse (fun hh => Except.noConfusion hh)
  | .error _, .ok _ => isFalse (fun hh => Except.noConfusion hh)

/-- The fixed tarball URL (bbc_hindi.py lines 23-26). -/
def URL : String :=
  "https://github.com/NirantK/hindi2vec/releases/download/bbc-hindi-v0.1/bbc-hindiv01.tar.gz"

/-- Split a character list on a separator, keeping empty groups, as
Python's `str.split` with an explicit separator does. -/
def splitOnChar (c : Char) : List Char → List (List Char)
  | [] => [[]]
  | a :: as =>
    let r := splitOnChar c as
    if a = c then [] :: r
    else
      match r with
      | [] => [[a]]
      | g :: gs => (a :: g) :: gs

/-- The last element of a list of strings, or a default. -/
def lastStr (d : String) : List String → String
  | [] => d
  | [a] => a
  | _ :: a :: as => lastStr d (a :: as)

/-- `URL.split("/")[-1]` (line 40). -/
def zippedFileName : String := lastStr "" ((splitOnChar '/' URL.data).map (fun g => ⟨g⟩))

/-- `os.path.join` on a POSIX system. -/
def pathJoin (a b : String) : String := a ++ "/" ++ b

/-- The options the two `pd.read_csv` calls pass: tab separator, UTF-8,
no header row (lines 51-63). -/
def tabCsvConfig : CsvConfig := ⟨"\t", "utf-8", none⟩

/-- `load_pandas_df` (bbc_hindi.py lines 29-65): download the tarball if
absent, extract it, read the two tab-separated UTF-8 headerless CSV
splits, and return `(train_df, test_df)`.  The trace records the
collaborator calls in order; exceptions propagate unhandled. -/
def load_pandas_df {D : Type} (env : Env D) (local_cache_path : String) :
    List Event × Except PyError (List Row × List Row) :=
  let zipped_file := zippedFileName
  let eDown := Event.download URL zipped_file local_cache_path
  match env.download URL zipped_file local_cache_path with
  | .error e => ([eDown], .error e)
  | .ok _ =>
    let zipped_file_path := pathJoin local_cache_path zipped_file
    let eTar := Event.extractArchive zipped_file_path local_cache_path
    match env.extract zipped_file_path local_cache_path with
    | .error e => ([eDown, eTar], .error e)
    | .ok _ =>
      let train_csv_file_path := pathJoin local_cache_path "hindi-train.csv"
      let test_csv_file_path := pathJoin local_cache_path "hindi-test.csv"
      let eTrain := Event.readCsv train_csv_file_path tabCsvConfig
      match env.readCsv train_csv_file_path tabCsvConfig with
      | .error e => ([eDown, eTar, eTrain], .error e)
      | .ok train_df =>
        let eTest := Event.readCsv test_csv_file_path tabCsvConfig
        match env.readCsv test_csv_file_path tabCsvConfig with
        | .error e => ([eDown, eTar, eTrain, eTest], .error e)
        | .ok test_df => ([eDown, eTar, eTrain, eTest], .ok (train_df, test_df))

/-- The inline sample-ratio validation of `load_dataset` (lines 142-154):
a ratio above `1.0` is clamped to `1.0` with a warning, a negative ratio
is logged and raised as a `ValueError` (message as in the source,
including its spelling), anything else is kept. -/
def checkSampleFrac (warnMsg errMsg : String) (r : Frac) : List Event × Except PyError Frac :=
  if Frac.one < r then
    ([Event.logWarning warnMsg], .ok Frac.one)
  else if r < Frac.zero then
    ([Event.logError (errMsg ++ r.toStr)],
     .error (.valueError (errMsg ++ r.toStr)))
  else ([], .ok r)

/-- Lines 161-178 of `load_dataset`: transform the label columns of the
two frames through the fitted encoder (raising on an unseen label, as
sklearn does), then preprocess both splits with the processor; the encoder
is returned unchanged with the two datasets. -/
def transformPreprocess {D : Type} (env : Env D) (label_encoder : LabelEncoder)
    (train_df test_df : List Row)
    (model_name : String) (to_lower : Bool) (cache_dir : String) (max_len : Nat) :
    List Event × Except PyError (D × D × LabelEncoder) :=
  match label_encoder.transform (train_df.map Prod.fst) with
  | none => ([], .error (.valueError "y contains previously unseen labels"))
  | some train_labels =>
    match label_encoder.transform (test_df.map Prod.fst) with
    | none => ([], .error (.valueError "y contains previously unseen labels"))
    | some test_labels =>
      let eTr := Event.preprocessCall (train_df.map Prod.snd) train_labels max_len
      match env.preprocess model_name to_lower cache_dir (train_df.map Prod.snd) train_labels max_len with
      | .error e => ([eTr], .error e)
      | .ok train_dataset =>
        let eTe := Event.preprocessCall (test_df.map Prod.snd) test_labels max_len
        match env.preprocess model_name to_lower cache_dir (test_df.map Prod.snd) test_labels max_len with
        | .error e => ([eTr, eTe], .error e)
        | .ok test_dataset => ([eTr, eTe], .ok (train_dataset, test_dataset, label_encoder))

/-- Lines 156-178 of `load_dataset`: sub-sample a frame exactly when its
(validated) ratio is under `1.0`, then transform and preprocess. -/
def samplePreprocess {D : Type} (env : Env D) (label_encoder : LabelEncoder)
    (train_df test_df : List Row) (trainFrac testFrac : Frac)
    (model_name : String) (to_lower : Bool) (cache_dir : String) (max_len : Nat) :
    List Event × Except PyError (D × D × LabelEncoder) :=
  transformPreprocess env label_encoder
    (if trainFrac < Frac.one then sampleFrame env.shuffle trainFrac train_df else train_df)
    (if testFrac < Frac.one then sampleFrame env.shuffle testFrac test_df else test_df)
    model_name to_lower cache_dir max_len

/-- `load_dataset` (bbc_hindi.py lines 68-178): download and load the two
splits, fit the label encoder on the full training label column, validate
the two sample ratios, sub-sample, transform labels and preprocess.
`test_fraction` is a placeholder and `random_seed` is accepted but never
used; both are kept to mirror the source signature. -/
def load_dataset {D : Type} (env : Env D) (local_path : String)
    (test_fraction : Frac) (random_seed : Option Int)
    ( train_sample_ratio : Frac) ( test_sample_ratio : Frac)
    (model_name : String) (to_lower : Bool) (cache_dir : String) (max_len : Nat) :
    List Event × Except PyError (D × D × LabelEncoder) :=
  match load_pandas_df env local_path with
  | (t, .error e) => (t, .error e)
  | (t, .ok (train_df, test_df)) =>
    let label_encoder := LabelEncoder.fit (train_df.map Prod.fst)
    let t1 := t ++ [Event.fitEncoder (train_df.map Prod.fst)]
    match checkSampleFrac "Setting the training sample ratio to 1.0"
        "Invalid training sample ration: " train_sample_ratio with
    | (tc, .error e) => (t1 ++ tc, .error e)
    | (tc, .ok trainFrac) =>
      match checkSampleFrac "Setting the testing sample ratio to 1.0"
        "Invalid testing sample ration: " test_sample_ratio with
      | (sc, .error e) => (t1 ++ tc ++ sc, .error e)
      | (sc, .ok testFrac) =>
        let p := samplePreprocess env label_encoder train_df test_df trainFrac testFrac
          model_name to_lower cache_dir max_len
        (t1 ++ tc ++ sc ++ p.1, p.2)

/-- The value the ratio validation returns on success: ratios above `1.0`
become `1.0`, others are kept. -/
def clampFrac (r : Frac) : Frac := if Frac.one < r then Frac.one else r

/-- The frame `load_dataset` hands to the label transform and the
processor for a given requested ratio: sub-sampled exactly when the
clamped ratio is under `1.0`. -/
def usedFrame (shuffle : List Row → List Row) (r : Frac) (rows : List Row) : List Row :=
  if clampFrac r < Frac.one then sampleFrame shuffle (clampFrac r) rows else rows

/-- Concrete training split used to exercise the theorems. -/
def trainRowsEx : List Row := [("sport", "a"), ("news", "b"), ("sport", "c"), ("biz", "d")]

/-- Concrete testing split whose labels all occur in the training split. -/
def testRowsEx : List Row := [("news", "x"), ("biz", "y")]

/-- Concrete testing split with a label the training split never shows. -/
def testRowsUnseenEx : List Row := [("weather", "z")]

/-- An environment in which every collaborator succeeds: the cache
directory `.` holds the two extracted splits, the random source is the
identity permutation, and preprocessing summarises its input sizes. -/
def goodEnv : Env Nat :=
  ⟨fun _ _ _ => .ok (), fun _ _ => .ok (),
   fun path _ =>
     if path = "./hindi-train.csv" then .ok trainRowsEx
     else if path = "./hindi-test.csv" then .ok testRowsEx
     else .error (.external "file not found"),
   id,
   fun _ _ _ texts labels ml => .ok (100 * texts.length + 10 * labels.length + ml)⟩

/-- Like `goodEnv`, but the download helper fails. -/
def envDownFail : Env Nat :=
  ⟨fun _ _ _ => .error (.external "network down"), fun _ _ => .ok (),
   goodEnv.readCsv, id, goodEnv.preprocess⟩

/-- Like `goodEnv`, but the tar extraction fails. -/
def envExtractFail : Env Nat :=
  ⟨fun _ _ _ => .ok (), fun _ _ => .error (.external "archive corrupt"),
   goodEnv.readCsv, id, goodEnv.preprocess⟩

/-- Like `goodEnv`, but reading the training CSV fails. -/
def envTrainReadFail : Env Nat :=
  ⟨fun _ _ _ => .ok (), fun _ _ => .ok (),
   fun path _ =>
     if path = "./hindi-train.csv" then .error (.external "missing train file")
     else .ok testRowsEx,
   id, goodEnv.preprocess⟩

/-- Like `goodEnv`, but reading the testing CSV fails. -/
def envTestReadFail : Env Nat :=
  ⟨fun _ _ _ => .ok (), fun _ _ => .ok (),
   fun path _ =>
     if path = "./hindi-train.csv" then .ok trainRowsEx
     else .error (.external "missing test file"),
   id, goodEnv.preprocess⟩

/-- Like `goodEnv`, but the processor fails on every input. -/
def envPreFail : Env Nat :=
  ⟨fun _ _ _ => .ok (), fun _ _ => .ok (), goodEnv.readCsv, id,
   fun _ _ _ _ _ _ => .error (.external "no pretrained model")⟩

/-- Like `goodEnv`, but the testing split carries a label unseen during
the encoder fit. -/
def envUnseen : Env Nat :=
  ⟨fun _ _ _ => .ok (), fun _ _ => .ok (),
   fun path _ =>
     if path = "./hindi-train.csv" then .ok trainRowsEx
     else if path = "./hindi-test.csv" then .ok testRowsUnseenEx
     else .error (.external "file not found"),
   id, goodEnv.preprocess⟩

/-- The trace of a successful `load_pandas_df` over cache directory `.`,
spelled out for concrete runs. -/
def pdTraceEx : List Event :=
  [Event.download URL zippedFileName ".",
   Event.extractArchive (pathJoin "." zippedFileName) ".",
   Event.readCsv (pathJoin "." "hindi-train.csv") tabCsvConfig,
   Event.readCsv (pathJoin "." "hindi-test.csv") tabCsvConfig]

/-- A nonneg numerator over a positive denominator rounds to a nonneg
integer. -/
theorem pythonRound_nonneg (x : Frac) (hden : 0 < x.den) (hnum : 0 ≤ x.num) :
    0 ≤ pythonRound x := by
  have hq : 0 ≤ x.num.ediv x.den := Int.ediv_nonneg hnum (le_of_lt hden)
  unfold pythonRound
  split_ifs <;> omega

/-- If the fraction is at most `n`, so is its Python rounding. -/
theorem pythonRound_le (x : Frac) (n : Int) (hden : 0 < x.den) (hle : x.num ≤ n * x.den) :
    pythonRound x ≤ n := by
  have hdvd : x.den * x.num.ediv x.den + x.num.emod x.den = x.num := Int.ediv_add_emod _ _
  have hr0 : 0 ≤ x.num.emod x.den := Int.emod_nonneg _ (by omega)
  have hrlt : x.num.emod x.den < x.den := Int.emod_lt_of_pos _ hden
  have hc : x.den * n = n * x.den := mul_comm _ _
  have hq : x.num.ediv x.den ≤ n := by
    by_contra hcon
    push_neg at hcon
    have hmul : x.den * (n + 1) ≤ x.den * x.num.ediv x.den :=
      mul_le_mul_of_nonneg_left (by omega) (le_of_lt hden)
    rw [mul_add] at hmul
    linarith
  have hq1 : 0 < x.num.emod x.den → x.num.ediv x.den + 1 ≤ n := by
    intro hrpos
    by_contra hcon
    push_neg at hcon
    have hmul : x.den * n ≤ x.den * x.num.ediv x.den :=
      mul_le_mul_of_nonneg_left (by omega) (le_of_lt hden)
    linarith
  unfold pythonRound
  split_ifs with h1 h2 h3
  · exact hq
  · exact hq1 (by omega)
  · exact hq
  · exact hq1 (by omega)

/-- The sampled frame of `DataFrame.sample(frac=...)` has exactly
`round(frac * n)` rows when the ratio is under `1.0` and the random source
permutes the rows. -/
theorem sampleFrame_length (shuffle : List Row → List Row) (frac : Frac) (rows : List Row)
    (hperm : (shuffle rows).Perm rows) (hden : 0 < frac.den) (hlt : frac.num < frac.den) :
    (sampleFrame shuffle frac rows).length = (pythonRound (frac.mulNat rows.length)).toNat := by
  have hle : (frac.mulNat rows.length).num ≤ (rows.length : Int) * (frac.mulNat rows.length).den := by
    show frac.num * (rows.length : Int) ≤ (rows.length : Int) * frac.den
    have h1 : frac.num * (rows.length : Int) ≤ frac.den * (rows.length : Int) :=
      mul_le_mul_of_nonneg_right (le_of_lt hlt) (by positivity)
    linarith [mul_comm frac.den (rows.length : Int)]
  have hk : pythonRound (frac.mulNat rows.length) ≤ (rows.length : Int) :=
    pythonRound_le _ _ hden hle
  unfold sampleFrame
  rw [List.length_take, hperm.length_eq]
  omega

/-- Every row of a sampled frame is a row of the original frame. -/
theorem sampleFrame_mem (shuffle : List Row → List Row) (frac : Frac) (rows : List Row)
    (hperm : (shuffle rows).Perm rows) :
    ∀ x ∈ sampleFrame shuffle frac rows, x ∈ rows := by
  intro x hx
  exact hperm.mem_iff.mp (List.take_subset _ _ hx)

/-- Every row of the frame `load_dataset` ends up using is a row of the
loaded frame. -/
theorem usedFrame_mem (shuffle : List Row → List Row) (r : Frac) (rows : List Row)
    (hperm : (shuffle rows).Perm rows) :
    ∀ x ∈ usedFrame shuffle r rows, x ∈ rows := by
  intro x hx
  unfold usedFrame at hx
  split at hx
  · exact sampleFrame_mem _ _ _ hperm x hx
  · exact hx

/-- Label-column version of `usedFrame_mem`. -/
theorem usedFrame_label_mem (shuffle : List Row → List Row) (r : Frac) (rows : List Row)
    (hperm : (shuffle rows).Perm rows) :
    ∀ l ∈ (usedFrame shuffle r rows).map Prod.fst, l ∈ rows.map Prod.fst := by
  intro l hl
  obtain ⟨x, hx, rfl⟩ := List.mem_map.mp hl
  exact List.mem_map.mpr ⟨x, usedFrame_mem shuffle r rows hperm x hx, rfl⟩

/-- A found index points at the value searched for. -/
theorem idxOfStr_getElem (v : String) (l : List String) (i : Nat)
    (h : idxOfStr v l = some i) : l[i]? = some v := by
  induction l generalizing i with
  | nil => simp [idxOfStr] at h
  | cons c cs ih =>
    by_cases hc : c = v
    · simp [idxOfStr, hc] at h
      subst h
      simp [hc]
    · simp [idxOfStr, hc] at h
      obtain ⟨j, hj, rfl⟩ := h
      simpa using ih j hj

/-- A present value has an index. -/
theorem idxOfStr_of_mem (v : String) (l : List String) (h : v ∈ l) :
    ∃ i, idxOfStr v l = some i := by
  induction l with
  | nil => simp at h
  | cons c cs ih =>
    by_cases hc : c = v
    · exact ⟨0, by simp [idxOfStr, hc]⟩
    · have hm : v ∈ cs := by
        rcases List.mem_cons.mp h with h1 | h1
        · exact absurd h1.symm hc
        · exact h1
      obtain ⟨i, hi⟩ := ih hm
      exact ⟨i + 1, by simp [idxOfStr, hc, hi]⟩

/-- A value with an index is present. -/
theorem mem_of_idxOfStr (v : String) (l : List String) (i : Nat)
    (h : idxOfStr v l = some i) : v ∈ l := by
  have hg := idxOfStr_getElem v l i h
  exact List.getElem?_mem hg

/-- Values a transform succeeded on were all seen classes. -/
theorem transform_sound (e : LabelEncoder) (vs : List String) (ids : List Nat)
    (h : e.transform vs = some ids) : ∀ v ∈ vs, v ∈ e.classes := by
  induction vs generalizing ids with
  | nil => simp
  | cons a as ih =>
    intro v hv
    cases h1 : e.transform1 a with
    | none => simp [LabelEncoder.transform, h1] at h
    | some i =>
      cases h2 : e.transform as with
      | none => simp [LabelEncoder.transform, h1, h2] at h
      | some is =>
        rcases List.mem_cons.mp hv with rfl | hv2
        · exact mem_of_idxOfStr v _ i h1
        · exact ih is h2 v hv2

/-- The transform succeeds on any column of seen classes. -/
theorem transform_total (e : LabelEncoder) (vs : List String)
    (h : ∀ v ∈ vs, v ∈ e.classes) : ∃ ids, e.transform vs = some ids := by
  induction vs with
  | nil => exact ⟨[], rfl⟩
  | cons a as ih =>
    obtain ⟨i, hi⟩ := idxOfStr_of_mem a e.classes (h a (by simp))
    obtain ⟨is, his⟩ := ih (fun v hv => h v (by simp [hv]))
    exact ⟨i :: is, by simp [LabelEncoder.transform, LabelEncoder.transform1, hi, his]⟩

/-- `inverse_transform` undoes a successful `transform`. -/
theorem transform_inverse (e : LabelEncoder) (vs : List String) (ids : List Nat)
    (h : e.transform vs = some ids) : e.inverse_transform ids = some vs := by
  induction vs generalizing ids with
  | nil =>
    simp [LabelEncoder.transform] at h
    subst h
    rfl
  | cons a as ih =>
    cases h1 : e.transform1 a with
    | none => simp [LabelEncoder.transform, h1] at h
    | some i =>
      cases h2 : e.transform as with
      | none => simp [LabelEncoder.transform, h1, h2] at h
      | some is =>
        simp only [LabelEncoder.transform, h1, h2] at h
        injection h with h
        subst h
        have hget : e.classes[i]? = some a := idxOfStr_getElem a e.classes i h1
        simp [LabelEncoder.inverse_transform, hget, ih is h2]

/-- Membership in an insertion. -/
theorem mem_insertSorted (y x : String) (l : List String) :
    y ∈ insertSorted x l ↔ y = x ∨ y ∈ l := by
  induction l with
  | nil => simp [insertSorted]
  | cons a as ih =>
    by_cases h : strLeB x a
    · simp [insertSorted, h]
    · simp [insertSorted, h, ih]
      tauto

/-- Sorting keeps membership. -/
theorem mem_sortStrings (y : String) (l : List String) :
    y ∈ sortStrings l ↔ y ∈ l := by
  induction l with
  | nil => simp [sortStrings]
  | cons a as ih =>
    unfold sortStrings at ih ⊢
    rw [List.foldr_cons, mem_insertSorted, ih]
    simp

/-- The classes of a fitted encoder are exactly the fitted values. -/
theorem mem_fit_classes (v : String) (labels : List String) :
    v ∈ (LabelEncoder.fit labels).classes ↔ v ∈ labels := by
  simp [LabelEncoder.fit, mem_sortStrings, List.mem_dedup]

/-- The cross-multiplication order, unfolded. -/
theorem frac_lt_iff (a b : Frac) : a < b ↔ a.num * b.den < b.num * a.den := Iff.rfl

/-- `1.0 < r` means the numerator tops the denominator. -/
theorem one_lt_iff (r : Frac) : Frac.one < r ↔ r.den < r.num := by
  rw [frac_lt_iff]
  simp [Frac.one]

/-- `r < 0` means a negative numerator. -/
theorem lt_zero_iff (r : Frac) : r < Frac.zero ↔ r.num < 0 := by
  rw [frac_lt_iff]
  simp [Frac.zero]

/-- `r < 1.0` means the numerator is under the denominator. -/
theorem lt_one_iff (r : Frac) : r < Frac.one ↔ r.num < r.den := by
  rw [frac_lt_iff]
  simp [Frac.one]

/-- An over-`1.0` ratio is clamped with a warning. -/
theorem checkSampleFrac_gt (w e : String) (r : Frac) (h : Frac.one < r) :
    checkSampleFrac w e r = ([Event.logWarning w], .ok Frac.one) := by
  simp [checkSampleFrac, h]

/-- A negative ratio (positive denominator) is logged and raised. -/
theorem checkSampleFrac_neg (w e : String) (r : Frac) (hden : 0 < r.den) (h : r < Frac.zero) :
    checkSampleFrac w e r =
      ([Event.logError (e ++ r.toStr)],
       .error (.valueError (e ++ r.toStr))) := by
  have h1 : ¬ Frac.one < r := by
    rw [one_lt_iff]
    rw [lt_zero_iff] at h
    omega
  simp [checkSampleFrac, h1, h]

/-- A ratio in `[0, 1]` passes through silently. -/
theorem checkSampleFrac_id (w e : String) (r : Frac)
    (h1 : ¬ Frac.one < r) (h2 : ¬ r < Frac.zero) :
    checkSampleFrac w e r = ([], .ok r) := by
  simp [checkSampleFrac, h1, h2]

/-- A non-negative ratio always validates, to its clamped value. -/
theorem checkSampleFrac_nonneg (w e : String) (r : Frac) (h2 : ¬ r < Frac.zero) :
    ∃ tc, checkSampleFrac w e r = (tc, .ok (clampFrac r)) := by
  by_cases h1 : Frac.one < r
  · refine ⟨[Event.logWarning w], ?_⟩
    rw [checkSampleFrac_gt w e r h1]
    simp [clampFrac, h1]
  · refine ⟨[], ?_⟩
    rw [checkSampleFrac_id w e r h1 h2]
    simp [clampFrac, h1]

/-- A validated ratio is the clamped requested ratio. -/
theorem checkSampleFrac_ok_inv (w e : String) (r : Frac) (tc : List Event) (f : Frac)
    (h : checkSampleFrac w e r = (tc, .ok f)) : f = clampFrac r := by
  unfold checkSampleFrac at h
  split_ifs at h with h1 h2
  · simp at h
    simp [clampFrac, h1, h.2.symm]
  · simp at h
  · simp at h
    simp [clampFrac, h1, h.2.symm]

/-- A successful `load_pandas_df` run: its full trace and result. -/
theorem load_pandas_df_ok {D : Type} (env : Env D) (p : String) (tdf sdf : List Row)
    (hd : env.download URL zippedFileName p = .ok ())
    (he : env.extract (pathJoin p zippedFileName) p = .ok ())
    (htr : env.readCsv (pathJoin p "hindi-train.csv") tabCsvConfig = .ok tdf)
    (hte : env.readCsv (pathJoin p "hindi-test.csv") tabCsvConfig = .ok sdf) :
    load_pandas_df env p =
      ([Event.download URL zippedFileName p,
        Event.extractArchive (pathJoin p zippedFileName) p,
        Event.readCsv (pathJoin p "hindi-train.csv") tabCsvConfig,
        Event.readCsv (pathJoin p "hindi-test.csv") tabCsvConfig],
       .ok (tdf, sdf)) := by
  simp [load_pandas_df, hd, he, htr, hte]

/-- A failing download propagates. -/
theorem load_pandas_df_download_err {D : Type} (env : Env D) (p : String) (e : PyError)
    (hd : env.download URL zippedFileName p = .error e) :
    load_pandas_df env p = ([Event.download URL zippedFileName p], .error e) := by
  simp [load_pandas_df, hd]

/-- A failing extraction propagates. -/
theorem load_pandas_df_extract_err {D : Type} (env : Env D) (p : String) (e : PyError)
    (hd : env.download URL zippedFileName p = .ok ())
    (he : env.extract (pathJoin p zippedFileName) p = .error e) :
    load_pandas_df env p =
      ([Event.download URL zippedFileName p,
        Event.extractArchive (pathJoin p zippedFileName) p], .error e) := by
  simp [load_pandas_df, hd, he]

/-- A failing training-CSV read propagates. -/
theorem load_pandas_df_train_err {D : Type} (env : Env D) (p : String) (e : PyError)
    (hd : env.download URL zippedFileName p = .ok ())
    (he : env.extract (pathJoin p zippedFileName) p = .ok ())
    (htr : env.readCsv (pathJoin p "hindi-train.csv") tabCsvConfig = .error e) :
    load_pandas_df env p =
      ([Event.download URL zippedFileName p,
        Event.extractArchive (pathJoin p zippedFileName) p,
        Event.readCsv (pathJoin p "hindi-train.csv") tabCsvConfig], .error e) := by
  simp [load_pandas_df, hd, he, htr]

/-- A failing testing-CSV read propagates. -/
theorem load_pandas_df_test_err {D : Type} (env : Env D) (p : String) (e : PyError)
    (tdf : List Row)
    (hd : env.download URL zippedFileName p = .ok ())
    (he : env.extract (pathJoin p zippedFileName) p = .ok ())
    (htr : env.readCsv (pathJoin p "hindi-train.csv") tabCsvConfig = .ok tdf)
    (hte : env.readCsv (pathJoin p "hindi-test.csv") tabCsvConfig = .error e) :
    load_pandas_df env p =
      ([Event.download URL zippedFileName p,
        Event.extractArchive (pathJoin p zippedFileName) p,
        Event.readCsv (pathJoin p "hindi-train.csv") tabCsvConfig,
        Event.readCsv (pathJoin p "hindi-test.csv") tabCsvConfig], .error e) := by
  simp [load_pandas_df, hd, he, htr, hte]

/-- A failing `load_pandas_df` fails `load_dataset` with the same error. -/
theorem load_dataset_pd_err {D : Type} (env : Env D) (p : String) (tf : Frac)
    (seed : Option Int) (r1 r2 : Frac) (mn : String) (tl : Bool) (cd : String) (ml : Nat)
    (t : List Event) (e : PyError)
    (hp : load_pandas_df env p = (t, .error e)) :
    load_dataset env p tf seed r1 r2 mn tl cd ml = (t, .error e) := by
  simp [load_dataset, hp]

/-- `load_dataset` after a successful load and two validated ratios. -/
theorem load_dataset_checks_ok {D : Type} (env : Env D) (p : String) (tf : Frac)
    (seed : Option Int) (r1 r2 : Frac) (mn : String) (tl : Bool) (cd : String) (ml : Nat)
    (t0 : List Event) (tdf sdf : List Row) (tc sc : List Event) (f1 f2 : Frac)
    (hp : load_pandas_df env p = (t0, .ok (tdf, sdf)))
    (hc1 : checkSampleFrac "Setting the training sample ratio to 1.0"
      "Invalid training sample ration: " r1 = (tc, .ok f1))
    (hc2 : checkSampleFrac "Setting the testing sample ratio to 1.0"
      "Invalid testing sample ration: " r2 = (sc, .ok f2)) :
    load_dataset env p tf seed r1 r2 mn tl cd ml =
      (t0 ++ [Event.fitEncoder (tdf.map Prod.fst)] ++ tc ++ sc ++
        (samplePreprocess env (LabelEncoder.fit (tdf.map Prod.fst)) tdf sdf f1 f2
          mn tl cd ml).1,
       (samplePreprocess env (LabelEncoder.fit (tdf.map Prod.fst)) tdf sdf f1 f2
          mn tl cd ml).2) := by
  simp [load_dataset, hp, hc1, hc2]

/-- `load_dataset` when the training ratio is rejected. -/
theorem load_dataset_check1_err {D : Type} (env : Env D) (p : String) (tf : Frac)
    (seed : Option Int) (r1 r2 : Frac) (mn : String) (tl : Bool) (cd : String) (ml : Nat)
    (t0 : List Event) (tdf sdf : List Row) (tc : List Event) (e : PyError)
    (hp : load_pandas_df env p = (t0, .ok (tdf, sdf)))
    (hc1 : checkSampleFrac "Setting the training sample ratio to 1.0"
      "Invalid training sample ration: " r1 = (tc, .error e)) :
    load_dataset env p tf seed r1 r2 mn tl cd ml =
      (t0 ++ [Event.fitEncoder (tdf.map Prod.fst)] ++ tc, .error e) := by
  simp [load_dataset, hp, hc1]

/-- `load_dataset` when the testing ratio is rejected. -/
theorem load_dataset_check2_err {D : Type} (env : Env D) (p : String) (tf : Frac)
    (seed : Option Int) (r1 r2 : Frac) (mn : String) (tl : Bool) (cd : String) (ml : Nat)
    (t0 : List Event) (tdf sdf : List Row) (tc sc : List Event) (f1 : Frac) (e : PyError)
    (hp : load_pandas_df env p = (t0, .ok (tdf, sdf)))
    (hc1 : checkSampleFrac "Setting the training sample ratio to 1.0"
      "Invalid training sample ration: " r1 = (tc, .ok f1))
    (hc2 : checkSampleFrac "Setting the testing sample ratio to 1.0"
      "Invalid testing sample ration: " r2 = (sc, .error e)) :
    load_dataset env p tf seed r1 r2 mn tl cd ml =
      (t0 ++ [Event.fitEncoder (tdf.map Prod.fst)] ++ tc ++ sc, .error e) := by
  simp [load_dataset, hp, hc1, hc2]

/-- Applying the sampling step to clamped ratios is exactly
`transformPreprocess` on the used frames. -/
theorem samplePreprocess_clamp {D : Type} (env : Env D) (enc : LabelEncoder)
    (tdf sdf : List Row) (r1 r2 : Frac)
    (mn : String) (tl : Bool) (cd : String) (ml : Nat) :
    samplePreprocess env enc tdf sdf (clampFrac r1) (clampFrac r2) mn tl cd ml =
      transformPreprocess env enc (usedFrame env.shuffle r1 tdf)
        (usedFrame env.shuffle r2 sdf) mn tl cd ml := rfl

/-- When both label transforms succeed, the training preprocess event is
in the trace (whatever the processor then does). -/
theorem tp_train_event {D : Type} (env : Env D) (enc : LabelEncoder)
    (train test : List Row) (mn : String) (tl : Bool) (cd : String) (ml : Nat)
    (ids1 ids2 : List Nat)
    (h1 : enc.transform (train.map Prod.fst) = some ids1)
    (h2 : enc.transform (test.map Prod.fst) = some ids2) :
    Event.preprocessCall (train.map Prod.snd) ids1 ml ∈
      (transformPreprocess env enc train test mn tl cd ml).1 := by
  unfold transformPreprocess
  rw [h1, h2]
  dsimp only
  split
  · simp
  · split
    · simp
    · simp

/-- Inversion of a successful `transformPreprocess`: the encoder comes
back unchanged and both transforms succeeded. -/
theorem tp_ok_inv {D : Type} (env : Env D) (enc : LabelEncoder) (train test : List Row)
    (mn : String) (tl : Bool) (cd : String) (ml : Nat) (d1 d2 : D) (enc' : LabelEncoder)
    (h : (transformPreprocess env enc train test mn tl cd ml).2 = .ok (d1, d2, enc')) :
    enc' = enc ∧
      (∃ ids1, enc.transform (train.map Prod.fst) = some ids1) ∧
      (∃ ids2, enc.transform (test.map Prod.fst) = some ids2) := by
  unfold transformPreprocess at h
  cases h1 : enc.transform (train.map Prod.fst) with
  | none => rw [h1] at h; simp at h
  | some ids1 =>
    cases h2 : enc.transform (test.map Prod.fst) with
    | none => rw [h1, h2] at h; simp at h
    | some ids2 =>
      rw [h1, h2] at h
      dsimp only at h
      cases hp1 : env.preprocess mn tl cd (train.map Prod.snd) ids1 ml with
      | error e => rw [hp1] at h; simp at h
      | ok dd1 =>
        rw [hp1] at h
        dsimp only at h
        cases hp2 : env.preprocess mn tl cd (test.map Prod.snd) ids2 ml with
        | error e => rw [hp2] at h; simp at h
        | ok dd2 =>
          rw [hp2] at h
          simp at h
          exact ⟨h.2.2.symm, ⟨ids1, rfl⟩, ⟨ids2, rfl⟩⟩

/-- A failing training transform raises the sklearn error. -/
theorem tp_train_transform_none {D : Type} (env : Env D) (enc : LabelEncoder)
    (train test : List Row) (mn : String) (tl : Bool) (cd : String) (ml : Nat)
    (h1 : enc.transform (train.map Prod.fst) = none) :
    (transformPreprocess env enc train test mn tl cd ml).2 =
      .error (.valueError "y contains previously unseen labels") := by
  unfold transformPreprocess
  rw [h1]

/-- A failing testing transform raises the sklearn error. -/
theorem tp_test_transform_none {D : Type} (env : Env D) (enc : LabelEncoder)
    (train test : List Row) (mn : String) (tl : Bool) (cd : String) (ml : Nat)
    (ids1 : List Nat)
    (h1 : enc.transform (train.map Prod.fst) = some ids1)
    (h2 : enc.transform (test.map Prod.fst) = none) :
    (transformPreprocess env enc train test mn tl cd ml).2 =
      .error (.valueError "y contains previously unseen labels") := by
  unfold transformPreprocess
  rw [h1, h2]

/-- A ratio not above `1.0` is not clamped. -/
theorem clampFrac_eq_self (r : Frac) (h : ¬ Frac.one < r) : clampFrac r = r := by
  simp [clampFrac, h]

/-- For a ratio strictly under `1.0`, the used frame is the sampled
frame. -/
theorem usedFrame_of_lt_one (sh : List Row → List Row) (r : Frac) (rows : List Row)
    (h1 : ¬ Frac.one < r) (h2 : r < Frac.one) :
    usedFrame sh r rows = sampleFrame sh r rows := by
  unfold usedFrame
  rw [clampFrac_eq_self r h1]
  simp [h2]

/-- For a ratio above `1.0`, the used frame is the full frame. -/
theorem usedFrame_of_gt_one (sh : List Row → List Row) (r : Frac) (rows : List Row)
    (h : Frac.one < r) :
    usedFrame sh r rows = rows := by
  unfold usedFrame
  rw [show clampFrac r = Frac.one from by simp [clampFrac, h]]
  simp [frac_lt_iff, Frac.one]

/-- A processor that always fails makes the pipeline fail with its
error once both transforms succeed. -/
theorem tp_pre_err {D : Type} (env : Env D) (enc : LabelEncoder) (train test : List Row)
    (mn : String) (tl : Bool) (cd : String) (ml : Nat) (ids1 ids2 : List Nat) (e : PyError)
    (h1 : enc.transform (train.map Prod.fst) = some ids1)
    (h2 : enc.transform (test.map Prod.fst) = some ids2)
    (hpre : env.preprocess mn tl cd (train.map Prod.snd) ids1 ml = .error e) :
    (transformPreprocess env enc train test mn tl cd ml).2 = .error e := by
  unfold transformPreprocess
  rw [h1, h2]
  dsimp only
  rw [hpre]

/-- Inversion of a successful `load_dataset` run: the returned encoder is
the one fitted on the full training label column, and the label transforms
succeeded on the two used frames. -/
theorem load_dataset_ok_inv {D : Type} (env : Env D) (p : String) (tf : Frac)
    (seed : Option Int) (r1 r2 : Frac) (mn : String) (tl : Bool) (cd : String) (ml : Nat)
    (t0 : List Event) (tdf sdf : List Row) (d1 d2 : D) (enc : LabelEncoder)
    (hp : load_pandas_df env p = (t0, .ok (tdf, sdf)))
    (hok : (load_dataset env p tf seed r1 r2 mn tl cd ml).2 = .ok (d1, d2, enc)) :
    enc = LabelEncoder.fit (tdf.map Prod.fst) ∧
      (∃ ids1, enc.transform ((usedFrame env.shuffle r1 tdf).map Prod.fst) = some ids1) ∧
      (∃ ids2, enc.transform ((usedFrame env.shuffle r2 sdf).map Prod.fst) = some ids2) := by
  cases hc1 : checkSampleFrac "Setting the training sample ratio to 1.0"
      "Invalid training sample ration: " r1 with
  | mk tc res1 =>
    cases res1 with
    | error e =>
      rw [load_dataset_check1_err env p tf seed r1 r2 mn tl cd ml t0 tdf sdf tc e hp hc1] at hok
      simp at hok
    | ok f1 =>
      cases hc2 : checkSampleFrac "Setting the testing sample ratio to 1.0"
          "Invalid testing sample ration: " r2 with
      | mk sc res2 =>
        cases res2 with
        | error e =>
          rw [load_dataset_check2_err env p tf seed r1 r2 mn tl cd ml t0 tdf sdf tc sc f1 e
            hp hc1 hc2] at hok
          simp at hok
        | ok f2 =>
          rw [load_dataset_checks_ok env p tf seed r1 r2 mn tl cd ml t0 tdf sdf tc sc f1 f2
            hp hc1 hc2] at hok
          have hf1 := checkSampleFrac_ok_inv _ _ _ _ _ hc1
          have hf2 := checkSampleFrac_ok_inv _ _ _ _ _ hc2
          subst hf1
          subst hf2
          rw [samplePreprocess_clamp] at hok
          have hinv := tp_ok_inv env (LabelEncoder.fit (tdf.map Prod.fst))
            (usedFrame env.shuffle r1 tdf) (usedFrame env.shuffle r2 sdf)
            mn tl cd ml d1 d2 enc hok
          refine ⟨hinv.1, ?_, ?_⟩
          · rw [hinv.1]
            exact hinv.2.1
          · rw [hinv.1]
            exact hinv.2.2

/-- A `load_dataset` run with a successful load, valid ratios, a
permuting random source and test labels covered by the training labels
reaches the training preprocess call, whose inputs are the used training
frame's columns. -/
theorem load_dataset_reach_train {D : Type} (env : Env D) (p : String) (tf : Frac)
    (seed : Option Int) (r1 r2 : Frac) (mn : String) (tl : Bool) (cd : String) (ml : Nat)
    (t0 : List Event) (tdf sdf : List Row)
    (hp : load_pandas_df env p = (t0, .ok (tdf, sdf)))
    (hperm : ∀ l, (env.shuffle l).Perm l)
    (hsub : ∀ l ∈ sdf.map Prod.fst, l ∈ tdf.map Prod.fst)
    (hr1 : ¬ r1 < Frac.zero) (hr2 : ¬ r2 < Frac.zero) :
    ∃ ids1, (LabelEncoder.fit (tdf.map Prod.fst)).transform
        ((usedFrame env.shuffle r1 tdf).map Prod.fst) = some ids1 ∧
      Event.preprocessCall ((usedFrame env.shuffle r1 tdf).map Prod.snd) ids1 ml ∈
        (load_dataset env p tf seed r1 r2 mn tl cd ml).1 := by
  obtain ⟨tc, hc1⟩ := checkSampleFrac_nonneg "Setting the training sample ratio to 1.0"
    "Invalid training sample ration: " r1 hr1
  obtain ⟨sc, hc2⟩ := checkSampleFrac_nonneg "Setting the testing sample ratio to 1.0"
    "Invalid testing sample ration: " r2 hr2
  have htr1 : ∀ v ∈ (usedFrame env.shuffle r1 tdf).map Prod.fst,
      v ∈ (LabelEncoder.fit (tdf.map Prod.fst)).classes := by
    intro v hv
    rw [mem_fit_classes]
    exact usedFrame_label_mem env.shuffle r1 tdf (hperm tdf) v hv
  obtain ⟨ids1, hids1⟩ := transform_total _ _ htr1
  have htr2 : ∀ v ∈ (usedFrame env.shuffle r2 sdf).map Prod.fst,
      v ∈ (LabelEncoder.fit (tdf.map Prod.fst)).classes := by
    intro v hv
    rw [mem_fit_classes]
    exact hsub v (usedFrame_label_mem env.shuffle r2 sdf (hperm sdf) v hv)
  obtain ⟨ids2, hids2⟩ := transform_total _ _ htr2
  refine ⟨ids1, hids1, ?_⟩
  rw [load_dataset_checks_ok env p tf seed r1 r2 mn tl cd ml t0 tdf sdf tc sc
    (clampFrac r1) (clampFrac r2) hp hc1 hc2]
  have hmem := tp_train_event env (LabelEncoder.fit (tdf.map Prod.fst))
    (usedFrame env.shuffle r1 tdf) (usedFrame env.shuffle r2 sdf)
    mn tl cd ml ids1 ids2 hids1 hids2
  rw [samplePreprocess_clamp]
  simp only [List.mem_append]
  tauto

/-- When both transforms succeed and the training preprocess call
returns, the testing preprocess event is in the trace. -/
theorem tp_test_event {D : Type} (env : Env D) (enc : LabelEncoder)
    (train test : List Row) (mn : String) (tl : Bool) (cd : String) (ml : Nat)
    (ids1 ids2 : List Nat) (d : D)
    (h1 : enc.transform (train.map Prod.fst) = some ids1)
    (h2 : enc.transform (test.map Prod.fst) = some ids2)
    (hok : env.preprocess mn tl cd (train.map Prod.snd) ids1 ml = .ok d) :
    Event.preprocessCall (test.map Prod.snd) ids2 ml ∈
      (transformPreprocess env enc train test mn tl cd ml).1 := by
  unfold transformPreprocess
  rw [h1, h2]
  dsimp only
  rw [hok]
  dsimp only
  split
  · simp
  · simp

/-- Like `load_dataset_reach_train`, with a processor that always
returns: the testing preprocess call is reached, on the used testing
frame's columns. -/
theorem load_dataset_reach_test {D : Type} (env : Env D) (p : String) (tf : Frac)
    (seed : Option Int) (r1 r2 : Frac) (mn : String) (tl : Bool) (cd : String) (ml : Nat)
    (t0 : List Event) (tdf sdf : List Row)
    (hp : load_pandas_df env p = (t0, .ok (tdf, sdf)))
    (hperm : ∀ l, (env.shuffle l).Perm l)
    (hsub : ∀ l ∈ sdf.map Prod.fst, l ∈ tdf.map Prod.fst)
    (hr1 : ¬ r1 < Frac.zero) (hr2 : ¬ r2 < Frac.zero)
    (hpre : ∀ tx lb, ∃ d, env.preprocess mn tl cd tx lb ml = Except.ok d) :
    ∃ ids2, (LabelEncoder.fit (tdf.map Prod.fst)).transform
        ((usedFrame env.shuffle r2 sdf).map Prod.fst) = some ids2 ∧
      Event.preprocessCall ((usedFrame env.shuffle r2 sdf).map Prod.snd) ids2 ml ∈
        (load_dataset env p tf seed r1 r2 mn tl cd ml).1 := by
  obtain ⟨tc, hc1⟩ := checkSampleFrac_nonneg "Setting the training sample ratio to 1.0"
    "Invalid training sample ration: " r1 hr1
  obtain ⟨sc, hc2⟩ := checkSampleFrac_nonneg "Setting the testing sample ratio to 1.0"
    "Invalid testing sample ration: " r2 hr2
  have htr1 : ∀ v ∈ (usedFrame env.shuffle r1 tdf).map Prod.fst,
      v ∈ (LabelEncoder.fit (tdf.map Prod.fst)).classes := by
    intro v hv
    rw [mem_fit_classes]
    exact usedFrame_label_mem env.shuffle r1 tdf (hperm tdf) v hv
  obtain ⟨ids1, hids1⟩ := transform_total _ _ htr1
  have htr2 : ∀ v ∈ (usedFrame env.shuffle r2 sdf).map Prod.fst,
      v ∈ (LabelEncoder.fit (tdf.map Prod.fst)).classes := by
    intro v hv
    rw [mem_fit_classes]
    exact hsub v (usedFrame_label_mem env.shuffle r2 sdf (hperm sdf) v hv)
  obtain ⟨ids2, hids2⟩ := transform_total _ _ htr2
  obtain ⟨d, hd⟩ := hpre ((usedFrame env.shuffle r1 tdf).map Prod.snd) ids1
  refine ⟨ids2, hids2, ?_⟩
  rw [load_dataset_checks_ok env p tf seed r1 r2 mn tl cd ml t0 tdf sdf tc sc
    (clampFrac r1) (clampFrac r2) hp hc1 hc2]
  have hmem := tp_test_event env (LabelEncoder.fit (tdf.map Prod.fst))
    (usedFrame env.shuffle r1 tdf) (usedFrame env.shuffle r2 sdf)
    mn tl cd ml ids1 ids2 d hids1 hids2 hd
  rw [samplePreprocess_clamp]
  simp only [List.mem_append]
  tauto

/-- C3: for a fitted label encoder and an array of label values drawn
from its fitted classes, `get_label_values` applied to the encoder's
transform of those values returns the original values: it is the exact
inverse of the transform. -/
theorem c3_get_label_values_inverse (labels vs : List String)
    (h : ∀ v ∈ vs, v ∈ labels) :
    ∃ ids, (LabelEncoder.fit labels).transform vs = some ids ∧
      get_label_values (LabelEncoder.fit labels) ids = some vs := by
  have h2 : ∀ v ∈ vs, v ∈ (LabelEncoder.fit labels).classes := by
    intro v hv
    exact (mem_fit_classes v labels).mpr (h v hv)
  obtain ⟨ids, hids⟩ := transform_total _ _ h2
  exact ⟨ids, hids, transform_inverse _ _ _ hids⟩

/-- Witness for C3 at concrete labels. -/
theorem c3_get_label_values_inverse_witness :
    ∃ ids, (LabelEncoder.fit ["sport", "news", "sport", "biz"]).transform
        ["news", "biz", "news"] = some ids ∧
      get_label_values (LabelEncoder.fit ["sport", "news", "sport", "biz"]) ids =
        some ["news", "biz", "news"] :=
  c3_get_label_values_inverse ["sport", "news", "sport", "biz"] ["news", "biz", "news"]
    (by decide)

/-- C4: for a ratio strictly between 0 and 1, the frame sampled by
`load_dataset` (its `sampleFrame` step, fed to the training preprocess
call) has exactly `round(r * n)` of the original `n` rows, provided the
random source permutes the rows. -/
theorem c4_sample_size :
    (∀ (shuffle : List Row → List Row) (frac : Frac) (rows : List Row),
      (shuffle rows).Perm rows → 0 < frac.den → 0 < frac.num → frac.num < frac.den →
      (sampleFrame shuffle frac rows).length =
        (pythonRound (frac.mulNat rows.length)).toNat) ∧
    (∀ {D : Type} (env : Env D) (p : String) (tf : Frac) (seed : Option Int)
      (r1 r2 : Frac) (mn : String) (tl : Bool) (cd : String) (ml : Nat)
      (t0 : List Event) (tdf sdf : List Row),
      load_pandas_df env p = (t0, Except.ok (tdf, sdf)) →
      (∀ l, (env.shuffle l).Perm l) →
      (∀ l ∈ sdf.map Prod.fst, l ∈ tdf.map Prod.fst) →
      0 < r1.den → 0 < r1.num → r1.num < r1.den →
      ¬ r2 < Frac.zero →
      ∃ ids1,
        Event.preprocessCall ((sampleFrame env.shuffle r1 tdf).map Prod.snd) ids1 ml ∈
          (load_dataset env p tf seed r1 r2 mn tl cd ml).1 ∧
        (sampleFrame env.shuffle r1 tdf).length =
          (pythonRound (r1.mulNat tdf.length)).toNat) := by
  constructor
  · intro shuffle frac rows hperm hden hnum hlt
    exact sampleFrame_length shuffle frac rows hperm hden hlt
  · intro D env p tf seed r1 r2 mn tl cd ml t0 tdf sdf hp hperm hsub hden hnum hlt hr2
    have h1 : ¬ Frac.one < r1 := by
      rw [one_lt_iff]
      omega
    have h2 : r1 < Frac.one := by
      rw [lt_one_iff]
      omega
    have hr1 : ¬ r1 < Frac.zero := by
      rw [lt_zero_iff]
      omega
    obtain ⟨ids1, hids1, hmem⟩ := load_dataset_reach_train env p tf seed r1 r2 mn tl cd ml
      t0 tdf sdf hp hperm hsub hr1 hr2
    rw [usedFrame_of_lt_one env.shuffle r1 tdf h1 h2] at hids1 hmem
    exact ⟨ids1, hmem, sampleFrame_length env.shuffle r1 tdf (hperm tdf) hden hlt⟩

/-- Witness for C4: ratio `1/2` over four training rows yields two rows,
inside and outside a concrete `load_dataset` run. -/
theorem c4_sample_size_witness :
    ((sampleFrame id ⟨1, 2⟩ trainRowsEx).length =
      (pythonRound (Frac.mulNat ⟨1, 2⟩ trainRowsEx.length)).toNat) ∧
    (∃ ids1,
      Event.preprocessCall ((sampleFrame goodEnv.shuffle ⟨1, 2⟩ trainRowsEx).map Prod.snd)
          ids1 512 ∈
        (load_dataset goodEnv "." Frac.one none ⟨1, 2⟩ Frac.one "b" true "c" 512).1 ∧
      (sampleFrame goodEnv.shuffle ⟨1, 2⟩ trainRowsEx).length =
        (pythonRound (Frac.mulNat ⟨1, 2⟩ trainRowsEx.length)).toNat) := by
  constructor
  · exact c4_sample_size.1 id ⟨1, 2⟩ trainRowsEx (List.Perm.refl _) (by decide) (by decide)
      (by decide)
  · exact c4_sample_size.2 goodEnv "." Frac.one none ⟨1, 2⟩ Frac.one "b" true "c" 512
      pdTraceEx trainRowsEx testRowsEx (by decide) (fun l => List.Perm.refl _) (by decide)
      (by decide) (by decide) (by decide) (by decide)

/-- C2: a sample ratio strictly above 1.0 does not make `load_dataset`
raise: the run's result is that of ratio 1.0 (so the corresponding frame
is used unsampled), a clamping warning is logged, and under a permuting
random source the preprocess call receives the full frame's columns. -/
theorem c2_ratio_above_one_clamped :
    (∀ {D : Type} (env : Env D) (p : String) (tf : Frac) (seed : Option Int)
      (r1 r2 : Frac) (mn : String) (tl : Bool) (cd : String) (ml : Nat),
      Frac.one < r1 →
      (load_dataset env p tf seed r1 r2 mn tl cd ml).2 =
        (load_dataset env p tf seed Frac.one r2 mn tl cd ml).2) ∧
    (∀ {D : Type} (env : Env D) (p : String) (tf : Frac) (seed : Option Int)
      (r1 r2 : Frac) (mn : String) (tl : Bool) (cd : String) (ml : Nat),
      Frac.one < r2 →
      (load_dataset env p tf seed r1 r2 mn tl cd ml).2 =
        (load_dataset env p tf seed r1 Frac.one mn tl cd ml).2) ∧
    (∀ {D : Type} (env : Env D) (p : String) (tf : Frac) (seed : Option Int)
      (r1 r2 : Frac) (mn : String) (tl : Bool) (cd : String) (ml : Nat)
      (t0 : List Event) (tdf sdf : List Row),
      load_pandas_df env p = (t0, Except.ok (tdf, sdf)) →
      Frac.one < r1 →
      Event.logWarning "Setting the training sample ratio to 1.0" ∈
        (load_dataset env p tf seed r1 r2 mn tl cd ml).1) ∧
    (∀ {D : Type} (env : Env D) (p : String) (tf : Frac) (seed : Option Int)
      (r1 r2 : Frac) (mn : String) (tl : Bool) (cd : String) (ml : Nat)
      (t0 : List Event) (tdf sdf : List Row),
      load_pandas_df env p = (t0, Except.ok (tdf, sdf)) →
      ¬ r1 < Frac.zero → Frac.one < r2 →
      Event.logWarning "Setting the testing sample ratio to 1.0" ∈
        (load_dataset env p tf seed r1 r2 mn tl cd ml).1) ∧
    (∀ {D : Type} (env : Env D) (p : String) (tf : Frac) (seed : Option Int)
      (r1 r2 : Frac) (mn : String) (tl : Bool) (cd : String) (ml : Nat)
      (t0 : List Event) (tdf sdf : List Row),
      load_pandas_df env p = (t0, Except.ok (tdf, sdf)) →
      (∀ l, (env.shuffle l).Perm l) →
      (∀ l ∈ sdf.map Prod.fst, l ∈ tdf.map Prod.fst) →
      0 < r1.den → Frac.one < r1 → ¬ r2 < Frac.zero →
      ∃ ids1, (LabelEncoder.fit (tdf.map Prod.fst)).transform (tdf.map Prod.fst) =
          some ids1 ∧
        Event.preprocessCall (tdf.map Prod.snd) ids1 ml ∈
          (load_dataset env p tf seed r1 r2 mn tl cd ml).1) ∧
    (∀ {D : Type} (env : Env D) (p : String) (tf : Frac) (seed : Option Int)
      (r1 r2 : Frac) (mn : String) (tl : Bool) (cd : String) (ml : Nat)
      (t0 : List Event) (tdf sdf : List Row),
      load_pandas_df env p = (t0, Except.ok (tdf, sdf)) →
      (∀ l, (env.shuffle l).Perm l) →
      (∀ l ∈ sdf.map Prod.fst, l ∈ tdf.map Prod.fst) →
      (∀ tx lb, ∃ d, env.preprocess mn tl cd tx lb ml = Except.ok d) →
      ¬ r1 < Frac.zero → 0 < r2.den → Frac.one < r2 →
      ∃ ids2, (LabelEncoder.fit (tdf.map Prod.fst)).transform (sdf.map Prod.fst) =
          some ids2 ∧
        Event.preprocessCall (sdf.map Prod.snd) ids2 ml ∈
          (load_dataset env p tf seed r1 r2 mn tl cd ml).1) := by
  refine ⟨?_, ?_, ?_, ?_, ?_, ?_⟩
  · intro D env p tf seed r1 r2 mn tl cd ml h1
    cases hpd : load_pandas_df env p with
    | mk t res =>
      cases res with
      | error e =>
        rw [load_dataset_pd_err env p tf seed r1 r2 mn tl cd ml t e hpd,
          load_dataset_pd_err env p tf seed Frac.one r2 mn tl cd ml t e hpd]
      | ok pr =>
        obtain ⟨tdf, sdf⟩ := pr
        have hc1 := checkSampleFrac_gt "Setting the training sample ratio to 1.0"
          "Invalid training sample ration: " r1 h1
        have hc1' := checkSampleFrac_id "Setting the training sample ratio to 1.0"
          "Invalid training sample ration: " Frac.one (by decide) (by decide)
        cases hc2 : checkSampleFrac "Setting the testing sample ratio to 1.0"
            "Invalid testing sample ration: " r2 with
        | mk sc res2 =>
          cases res2 with
          | error e =>
            rw [load_dataset_check2_err env p tf seed r1 r2 mn tl cd ml t tdf sdf _ sc _ e
              hpd hc1 hc2,
              load_dataset_check2_err env p tf seed Frac.one r2 mn tl cd ml t tdf sdf _ sc _ e
              hpd hc1' hc2]
          | ok f2 =>
            rw [load_dataset_checks_ok env p tf seed r1 r2 mn tl cd ml t tdf sdf _ sc _ f2
              hpd hc1 hc2,
              load_dataset_checks_ok env p tf seed Frac.one r2 mn tl cd ml t tdf sdf _ sc _ f2
              hpd hc1' hc2]
  · intro D env p tf seed r1 r2 mn tl cd ml h2
    cases hpd : load_pandas_df env p with
    | mk t res =>
      cases res with
      | error e =>
        rw [load_dataset_pd_err env p tf seed r1 r2 mn tl cd ml t e hpd,
          load_dataset_pd_err env p tf seed r1 Frac.one mn tl cd ml t e hpd]
      | ok pr =>
        obtain ⟨tdf, sdf⟩ := pr
        have hc2 := checkSampleFrac_gt "Setting the testing sample ratio to 1.0"
          "Invalid testing sample ration: " r2 h2
        have hc2' := checkSampleFrac_id "Setting the testing sample ratio to 1.0"
          "Invalid testing sample ration: " Frac.one (by decide) (by decide)
        cases hc1 : checkSampleFrac "Setting the training sample ratio to 1.0"
            "Invalid training sample ration: " r1 with
        | mk tc res1 =>
          cases res1 with
          | error e =>
            rw [load_dataset_check1_err env p tf seed r1 r2 mn tl cd ml t tdf sdf tc e
              hpd hc1,
              load_dataset_check1_err env p tf seed r1 Frac.one mn tl cd ml t tdf sdf tc e
              hpd hc1]
          | ok f1 =>
            rw [load_dataset_checks_ok env p tf seed r1 r2 mn tl cd ml t tdf sdf tc _ f1 _
              hpd hc1 hc2,
              load_dataset_checks_ok env p tf seed r1 Frac.one mn tl cd ml t tdf sdf tc _ f1 _
              hpd hc1 hc2']
  · intro D env p tf seed r1 r2 mn tl cd ml t0 tdf sdf hp h1
    have hc1 := checkSampleFrac_gt "Setting the training sample ratio to 1.0"
      "Invalid training sample ration: " r1 h1
    cases hc2 : checkSampleFrac "Setting the testing sample ratio to 1.0"
        "Invalid testing sample ration: " r2 with
    | mk sc res2 =>
      cases res2 with
      | error e =>
        rw [load_dataset_check2_err env p tf seed r1 r2 mn tl cd ml t0 tdf sdf _ sc _ e
          hp hc1 hc2]
        simp
      | ok f2 =>
        rw [load_dataset_checks_ok env p tf seed r1 r2 mn tl cd ml t0 tdf sdf _ sc _ f2
          hp hc1 hc2]
        simp
  · intro D env p tf seed r1 r2 mn tl cd ml t0 tdf sdf hp hr1 h2
    obtain ⟨tc, hc1⟩ := checkSampleFrac_nonneg "Setting the training sample ratio to 1.0"
      "Invalid training sample ration: " r1 hr1
    have hc2 := checkSampleFrac_gt "Setting the testing sample ratio to 1.0"
      "Invalid testing sample ration: " r2 h2
    rw [load_dataset_checks_ok env p tf seed r1 r2 mn tl cd ml t0 tdf sdf tc _ _ _
      hp hc1 hc2]
    simp
  · intro D env p tf seed r1 r2 mn tl cd ml t0 tdf sdf hp hperm hsub hden h1 hr2
    have hr1 : ¬ r1 < Frac.zero := by
      rw [lt_zero_iff]
      rw [one_lt_iff] at h1
      omega
    obtain ⟨ids1, hids1, hmem⟩ := load_dataset_reach_train env p tf seed r1 r2 mn tl cd ml
      t0 tdf sdf hp hperm hsub hr1 hr2
    rw [usedFrame_of_gt_one env.shuffle r1 tdf h1] at hids1 hmem
    exact ⟨ids1, hids1, hmem⟩
  · intro D env p tf seed r1 r2 mn tl cd ml t0 tdf sdf hp hperm hsub hpre hr1 hden2 h2
    have hr2 : ¬ r2 < Frac.zero := by
      rw [lt_zero_iff]
      rw [one_lt_iff] at h2
      omega
    obtain ⟨ids2, hids2, hmem⟩ := load_dataset_reach_test env p tf seed r1 r2 mn tl cd ml
      t0 tdf sdf hp hperm hsub hr1 hr2 hpre
    rw [usedFrame_of_gt_one env.shuffle r2 sdf h2] at hids2 hmem
    exact ⟨ids2, hids2, hmem⟩

/-- Witness for C2 on concrete over-1.0 ratios. -/
theorem c2_ratio_above_one_clamped_witness :
    ((load_dataset goodEnv "." Frac.one none ⟨2, 1⟩ Frac.one "b" true "c" 512).2 =
      (load_dataset goodEnv "." Frac.one none Frac.one Frac.one "b" true "c" 512).2) ∧
    ((load_dataset goodEnv "." Frac.one none Frac.one ⟨3, 2⟩ "b" true "c" 512).2 =
      (load_dataset goodEnv "." Frac.one none Frac.one Frac.one "b" true "c" 512).2) ∧
    (Event.logWarning "Setting the training sample ratio to 1.0" ∈
      (load_dataset goodEnv "." Frac.one none ⟨2, 1⟩ Frac.one "b" true "c" 512).1) ∧
    (Event.logWarning "Setting the testing sample ratio to 1.0" ∈
      (load_dataset goodEnv "." Frac.one none Frac.one ⟨3, 2⟩ "b" true "c" 512).1) ∧
    (∃ ids1, (LabelEncoder.fit (trainRowsEx.map Prod.fst)).transform
        (trainRowsEx.map Prod.fst) = some ids1 ∧
      Event.preprocessCall (trainRowsEx.map Prod.snd) ids1 512 ∈
        (load_dataset goodEnv "." Frac.one none ⟨2, 1⟩ Frac.one "b" true "c" 512).1) ∧
    (∃ ids2, (LabelEncoder.fit (trainRowsEx.map Prod.fst)).transform
        (testRowsEx.map Prod.fst) = some ids2 ∧
      Event.preprocessCall (testRowsEx.map Prod.snd) ids2 512 ∈
        (load_dataset goodEnv "." Frac.one none Frac.one ⟨3, 2⟩ "b" true "c" 512).1) := by
  refine ⟨?_, ?_, ?_, ?_, ?_, ?_⟩
  · exact c2_ratio_above_one_clamped.1 goodEnv "." Frac.one none ⟨2, 1⟩ Frac.one
      "b" true "c" 512 (by decide)
  · exact c2_ratio_above_one_clamped.2.1 goodEnv "." Frac.one none Frac.one ⟨3, 2⟩
      "b" true "c" 512 (by decide)
  · exact c2_ratio_above_one_clamped.2.2.1 goodEnv "." Frac.one none ⟨2, 1⟩ Frac.one
      "b" true "c" 512 pdTraceEx trainRowsEx testRowsEx (by decide) (by decide)
  · exact c2_ratio_above_one_clamped.2.2.2.1 goodEnv "." Frac.one none Frac.one ⟨3, 2⟩
      "b" true "c" 512 pdTraceEx trainRowsEx testRowsEx (by decide) (by decide) (by decide)
  · exact c2_ratio_above_one_clamped.2.2.2.2.1 goodEnv "." Frac.one none ⟨2, 1⟩ Frac.one
      "b" true "c" 512 pdTraceEx trainRowsEx testRowsEx (by decide)
      (fun l => List.Perm.refl _) (by decide) (by decide) (by decide) (by decide)
  · exact c2_ratio_above_one_clamped.2.2.2.2.2 goodEnv "." Frac.one none Frac.one ⟨3, 2⟩
      "b" true "c" 512 pdTraceEx trainRowsEx testRowsEx (by decide)
      (fun l => List.Perm.refl _) (by decide) (fun tx lb => ⟨_, rfl⟩) (by decide)
      (by decide) (by decide)

/-- C1 (counterexample): a training sample ratio of 2 lies outside
`[0, 1]`, yet `load_dataset` does not raise on it: with collaborators that
all succeed the run returns ok. -/
theorem c1_counterexample :
    Frac.one < (⟨2, 1⟩ : Frac) ∧
    (load_dataset goodEnv "." Frac.one none ⟨2, 1⟩ Frac.one
      "bert-base-uncased" true "cache" 512).2.isOk = true := by
  constructor
  · decide
  · decide

/-- C1 (amended): only a strictly negative sample ratio makes
`load_dataset` raise a `ValueError`, whose message is also logged; ratios
above `1.0` are clamped instead of raising. -/
theorem c1_negative_ratio_raises :
    (∀ {D : Type} (env : Env D) (p : String) (tf : Frac) (seed : Option Int)
      (r1 r2 : Frac) (mn : String) (tl : Bool) (cd : String) (ml : Nat)
      (t0 : List Event) (tdf sdf : List Row),
      load_pandas_df env p = (t0, Except.ok (tdf, sdf)) →
      0 < r1.den → r1 < Frac.zero →
      (load_dataset env p tf seed r1 r2 mn tl cd ml).2 =
        Except.error (PyError.valueError ("Invalid training sample ration: " ++ r1.toStr)) ∧
      Event.logError ("Invalid training sample ration: " ++ r1.toStr) ∈
        (load_dataset env p tf seed r1 r2 mn tl cd ml).1) ∧
    (∀ {D : Type} (env : Env D) (p : String) (tf : Frac) (seed : Option Int)
      (r1 r2 : Frac) (mn : String) (tl : Bool) (cd : String) (ml : Nat)
      (t0 : List Event) (tdf sdf : List Row),
      load_pandas_df env p = (t0, Except.ok (tdf, sdf)) →
      ¬ r1 < Frac.zero → 0 < r2.den → r2 < Frac.zero →
      (load_dataset env p tf seed r1 r2 mn tl cd ml).2 =
        Except.error (PyError.valueError ("Invalid testing sample ration: " ++ r2.toStr)) ∧
      Event.logError ("Invalid testing sample ration: " ++ r2.toStr) ∈
        (load_dataset env p tf seed r1 r2 mn tl cd ml).1) := by
  constructor
  · intro D env p tf seed r1 r2 mn tl cd ml t0 tdf sdf hp hden hneg
    have hc1 := checkSampleFrac_neg "Setting the training sample ratio to 1.0"
      "Invalid training sample ration: " r1 hden hneg
    rw [load_dataset_check1_err env p tf seed r1 r2 mn tl cd ml t0 tdf sdf _ _ hp hc1]
    refine ⟨rfl, ?_⟩
    simp
  · intro D env p tf seed r1 r2 mn tl cd ml t0 tdf sdf hp hr1 hden hneg
    obtain ⟨tc, hc1⟩ := checkSampleFrac_nonneg "Setting the training sample ratio to 1.0"
      "Invalid training sample ration: " r1 hr1
    have hc2 := checkSampleFrac_neg "Setting the testing sample ratio to 1.0"
      "Invalid testing sample ration: " r2 hden hneg
    rw [load_dataset_check2_err env p tf seed r1 r2 mn tl cd ml t0 tdf sdf tc _ _ _ hp hc1 hc2]
    refine ⟨rfl, ?_⟩
    simp

/-- Witness for the amended C1, on concrete negative ratios. -/
theorem c1_negative_ratio_raises_witness :
    ((load_dataset goodEnv "." Frac.one none ⟨-1, 2⟩ Frac.one "b" true "c" 512).2 =
      Except.error (PyError.valueError ("Invalid training sample ration: " ++ Frac.toStr ⟨-1, 2⟩)) ∧
     Event.logError ("Invalid training sample ration: " ++ Frac.toStr ⟨-1, 2⟩) ∈
      (load_dataset goodEnv "." Frac.one none ⟨-1, 2⟩ Frac.one "b" true "c" 512).1) ∧
    ((load_dataset goodEnv "." Frac.one none Frac.one ⟨-3, 4⟩ "b" true "c" 512).2 =
      Except.error (PyError.valueError ("Invalid testing sample ration: " ++ Frac.toStr ⟨-3, 4⟩)) ∧
     Event.logError ("Invalid testing sample ration: " ++ Frac.toStr ⟨-3, 4⟩) ∈
      (load_dataset goodEnv "." Frac.one none Frac.one ⟨-3, 4⟩ "b" true "c" 512).1) := by
  constructor
  · exact c1_negative_ratio_raises.1 goodEnv "." Frac.one none ⟨-1, 2⟩ Frac.one "b" true "c" 512
      pdTraceEx trainRowsEx testRowsEx (by decide) (by decide) (by decide)
  · exact c1_negative_ratio_raises.2 goodEnv "." Frac.one none Frac.one ⟨-3, 4⟩ "b" true "c" 512
      pdTraceEx trainRowsEx testRowsEx (by decide) (by decide) (by decide) (by decide)

/-- C5: in a successful `load_dataset` run, every label value of the two
frames whose labels are transformed (the possibly sub-sampled training
frame and the used testing frame) occurs in the training label column the
encoder was fitted on, and hence among the returned encoder's classes. -/
theorem c5_labels_seen_during_fit {D : Type} (env : Env D) (p : String) (tf : Frac)
    (seed : Option Int) (r1 r2 : Frac) (mn : String) (tl : Bool) (cd : String) (ml : Nat)
    (t0 : List Event) (tdf sdf : List Row) (d1 d2 : D) (enc : LabelEncoder)
    (hp : load_pandas_df env p = (t0, Except.ok (tdf, sdf)))
    (hok : (load_dataset env p tf seed r1 r2 mn tl cd ml).2 = Except.ok (d1, d2, enc)) :
    (∀ l ∈ (usedFrame env.shuffle r1 tdf).map Prod.fst,
      l ∈ tdf.map Prod.fst ∧ l ∈ enc.classes) ∧
    (∀ l ∈ (usedFrame env.shuffle r2 sdf).map Prod.fst,
      l ∈ tdf.map Prod.fst ∧ l ∈ enc.classes) := by
  obtain ⟨henc, ⟨ids1, h1⟩, ⟨ids2, h2⟩⟩ := load_dataset_ok_inv env p tf seed r1 r2 mn tl cd ml
    t0 tdf sdf d1 d2 enc hp hok
  constructor
  · intro l hl
    have hcl : l ∈ enc.classes := transform_sound enc _ ids1 h1 l hl
    refine ⟨?_, hcl⟩
    rw [henc] at hcl
    exact (mem_fit_classes l _).mp hcl
  · intro l hl
    have hcl : l ∈ enc.classes := transform_sound enc _ ids2 h2 l hl
    refine ⟨?_, hcl⟩
    rw [henc] at hcl
    exact (mem_fit_classes l _).mp hcl

/-- Witness for C5 on a concrete successful run with sub-sampling. -/
theorem c5_labels_seen_during_fit_witness :
    (∀ l ∈ (usedFrame goodEnv.shuffle ⟨1, 2⟩ trainRowsEx).map Prod.fst,
      l ∈ trainRowsEx.map Prod.fst ∧
        l ∈ (LabelEncoder.fit (trainRowsEx.map Prod.fst)).classes) ∧
    (∀ l ∈ (usedFrame goodEnv.shuffle Frac.one testRowsEx).map Prod.fst,
      l ∈ trainRowsEx.map Prod.fst ∧
        l ∈ (LabelEncoder.fit (trainRowsEx.map Prod.fst)).classes) :=
  c5_labels_seen_during_fit goodEnv "." Frac.one none ⟨1, 2⟩ Frac.one "b" true "c" 512
    pdTraceEx trainRowsEx testRowsEx 732 732 (LabelEncoder.fit (trainRowsEx.map Prod.fst))
    (by decide) (by decide)

/-- C6: `load_pandas_df` reads exactly two files — the extracted train
and test CSV splits — each parsed tab-separated, UTF-8 and headerless,
and returns them as the pair (train frame, test frame). -/
theorem c6_load_pandas_df_reads {D : Type} (env : Env D) (p : String) (tdf sdf : List Row)
    (hd : env.download URL zippedFileName p = .ok ())
    (he : env.extract (pathJoin p zippedFileName) p = .ok ())
    (htr : env.readCsv (pathJoin p "hindi-train.csv") tabCsvConfig = .ok tdf)
    (hte : env.readCsv (pathJoin p "hindi-test.csv") tabCsvConfig = .ok sdf) :
    (load_pandas_df env p).2 = Except.ok (tdf, sdf) ∧
    (load_pandas_df env p).1.filter Event.isRead =
      [Event.readCsv (pathJoin p "hindi-train.csv") tabCsvConfig,
       Event.readCsv (pathJoin p "hindi-test.csv") tabCsvConfig] ∧
    tabCsvConfig.sep = "\t" ∧ tabCsvConfig.encoding = "utf-8" ∧
    tabCsvConfig.header = none := by
  rw [load_pandas_df_ok env p tdf sdf hd he htr hte]
  exact ⟨rfl, rfl, rfl, rfl, rfl⟩

/-- Witness for C6 in the all-good environment. -/
theorem c6_load_pandas_df_reads_witness :
    (load_pandas_df goodEnv ".").2 = Except.ok (trainRowsEx, testRowsEx) ∧
    (load_pandas_df goodEnv ".").1.filter Event.isRead =
      [Event.readCsv (pathJoin "." "hindi-train.csv") tabCsvConfig,
       Event.readCsv (pathJoin "." "hindi-test.csv") tabCsvConfig] ∧
    tabCsvConfig.sep = "\t" ∧ tabCsvConfig.encoding = "utf-8" ∧
    tabCsvConfig.header = none :=
  c6_load_pandas_df_reads goodEnv "." trainRowsEx testRowsEx (by decide) (by decide)
    (by decide) (by decide)

/-- C8: `load_dataset` accepts `random_seed` but never uses it: two calls
that differ only in the seed are the same computation, with the same trace
and result. -/
theorem c8_random_seed_unused :
    ∀ {D : Type} (env : Env D) (p : String) (tf : Frac) (s1 s2 : Option Int)
      (r1 r2 : Frac) (mn : String) (tl : Bool) (cd : String) (ml : Nat),
      load_dataset env p tf s1 r1 r2 mn tl cd ml =
        load_dataset env p tf s2 r1 r2 mn tl cd ml := by
  intros
  rfl

/-- C7: apart from the sample-ratio range check nothing is caught: a
failure of the download helper, the tar extractor, either CSV read, the
processor, or the label encoder (an unseen test label) propagates
unhandled out of `load_pandas_df` and `load_dataset`. -/
theorem c7_failures_propagate :
    (∀ {D : Type} (env : Env D) (p : String) (e : PyError),
      env.download URL zippedFileName p = Except.error e →
      (load_pandas_df env p).2 = Except.error e) ∧
    (∀ {D : Type} (env : Env D) (p : String) (e : PyError),
      env.download URL zippedFileName p = Except.ok () →
      env.extract (pathJoin p zippedFileName) p = Except.error e →
      (load_pandas_df env p).2 = Except.error e) ∧
    (∀ {D : Type} (env : Env D) (p : String) (e : PyError),
      env.download URL zippedFileName p = Except.ok () →
      env.extract (pathJoin p zippedFileName) p = Except.ok () →
      env.readCsv (pathJoin p "hindi-train.csv") tabCsvConfig = Except.error e →
      (load_pandas_df env p).2 = Except.error e) ∧
    (∀ {D : Type} (env : Env D) (p : String) (e : PyError) (tdf : List Row),
      env.download URL zippedFileName p = Except.ok () →
      env.extract (pathJoin p zippedFileName) p = Except.ok () →
      env.readCsv (pathJoin p "hindi-train.csv") tabCsvConfig = Except.ok tdf →
      env.readCsv (pathJoin p "hindi-test.csv") tabCsvConfig = Except.error e →
      (load_pandas_df env p).2 = Except.error e) ∧
    (∀ {D : Type} (env : Env D) (p : String) (tf : Frac) (seed : Option Int)
      (r1 r2 : Frac) (mn : String) (tl : Bool) (cd : String) (ml : Nat)
      (t : List Event) (e : PyError),
      load_pandas_df env p = (t, Except.error e) →
      (load_dataset env p tf seed r1 r2 mn tl cd ml).2 = Except.error e) ∧
    (∀ {D : Type} (env : Env D) (p : String) (tf : Frac) (seed : Option Int)
      (r1 r2 : Frac) (mn : String) (tl : Bool) (cd : String) (ml : Nat)
      (t0 : List Event) (tdf sdf : List Row) (e : PyError),
      load_pandas_df env p = (t0, Except.ok (tdf, sdf)) →
      (∀ l, (env.shuffle l).Perm l) →
      (∀ l ∈ sdf.map Prod.fst, l ∈ tdf.map Prod.fst) →
      (∀ tx lb, env.preprocess mn tl cd tx lb ml = Except.error e) →
      ¬ r1 < Frac.zero → ¬ r2 < Frac.zero →
      (load_dataset env p tf seed r1 r2 mn tl cd ml).2 = Except.error e) ∧
    (∀ {D : Type} (env : Env D) (p : String) (tf : Frac) (seed : Option Int)
      (r1 r2 : Frac) (mn : String) (tl : Bool) (cd : String) (ml : Nat)
      (t0 : List Event) (tdf sdf : List Row) (ids1 : List Nat),
      load_pandas_df env p = (t0, Except.ok (tdf, sdf)) →
      ¬ r1 < Frac.zero → ¬ r2 < Frac.zero →
      (LabelEncoder.fit (tdf.map Prod.fst)).transform
        ((usedFrame env.shuffle r1 tdf).map Prod.fst) = some ids1 →
      (LabelEncoder.fit (tdf.map Prod.fst)).transform
        ((usedFrame env.shuffle r2 sdf).map Prod.fst) = none →
      (load_dataset env p tf seed r1 r2 mn tl cd ml).2 =
        Except.error (PyError.valueError "y contains previously unseen labels")) := by
  refine ⟨?_, ?_, ?_, ?_, ?_, ?_, ?_⟩
  · intro D env p e hd
    rw [load_pandas_df_download_err env p e hd]
  · intro D env p e hd he
    rw [load_pandas_df_extract_err env p e hd he]
  · intro D env p e hd he htr
    rw [load_pandas_df_train_err env p e hd he htr]
  · intro D env p e tdf hd he htr hte
    rw [load_pandas_df_test_err env p e tdf hd he htr hte]
  · intro D env p tf seed r1 r2 mn tl cd ml t e hp
    rw [load_dataset_pd_err env p tf seed r1 r2 mn tl cd ml t e hp]
  · intro D env p tf seed r1 r2 mn tl cd ml t0 tdf sdf e hp hperm hsub hpre hr1 hr2
    obtain ⟨tc, hc1⟩ := checkSampleFrac_nonneg "Setting the training sample ratio to 1.0"
      "Invalid training sample ration: " r1 hr1
    obtain ⟨sc, hc2⟩ := checkSampleFrac_nonneg "Setting the testing sample ratio to 1.0"
      "Invalid testing sample ration: " r2 hr2
    have htr1 : ∀ v ∈ (usedFrame env.shuffle r1 tdf).map Prod.fst,
        v ∈ (LabelEncoder.fit (tdf.map Prod.fst)).classes := by
      intro v hv
      rw [mem_fit_classes]
      exact usedFrame_label_mem env.shuffle r1 tdf (hperm tdf) v hv
    obtain ⟨ids1, hids1⟩ := transform_total _ _ htr1
    have htr2 : ∀ v ∈ (usedFrame env.shuffle r2 sdf).map Prod.fst,
        v ∈ (LabelEncoder.fit (tdf.map Prod.fst)).classes := by
      intro v hv
      rw [mem_fit_classes]
      exact hsub v (usedFrame_label_mem env.shuffle r2 sdf (hperm sdf) v hv)
    obtain ⟨ids2, hids2⟩ := transform_total _ _ htr2
    rw [load_dataset_checks_ok env p tf seed r1 r2 mn tl cd ml t0 tdf sdf tc sc
      (clampFrac r1) (clampFrac r2) hp hc1 hc2]
    rw [samplePreprocess_clamp]
    exact tp_pre_err env (LabelEncoder.fit (tdf.map Prod.fst))
      (usedFrame env.shuffle r1 tdf) (usedFrame env.shuffle r2 sdf)
      mn tl cd ml ids1 ids2 e hids1 hids2 (hpre _ _)
  · intro D env p tf seed r1 r2 mn tl cd ml t0 tdf sdf ids1 hp hr1 hr2 h1 h2
    obtain ⟨tc, hc1⟩ := checkSampleFrac_nonneg "Setting the training sample ratio to 1.0"
      "Invalid training sample ration: " r1 hr1
    obtain ⟨sc, hc2⟩ := checkSampleFrac_nonneg "Setting the testing sample ratio to 1.0"
      "Invalid testing sample ration: " r2 hr2
    rw [load_dataset_checks_ok env p tf seed r1 r2 mn tl cd ml t0 tdf sdf tc sc
      (clampFrac r1) (clampFrac r2) hp hc1 hc2]
    rw [samplePreprocess_clamp]
    exact tp_test_transform_none env (LabelEncoder.fit (tdf.map Prod.fst))
      (usedFrame env.shuffle r1 tdf) (usedFrame env.shuffle r2 sdf)
      mn tl cd ml ids1 h1 h2

/-- Witness for C7: one failing collaborator of each kind, each error
observed unchanged in the result. -/
theorem c7_failures_propagate_witness :
    (load_pandas_df envDownFail ".").2 = Except.error (PyError.external "network down") ∧
    (load_pandas_df envExtractFail ".").2 = Except.error (PyError.external "archive corrupt") ∧
    (load_pandas_df envTrainReadFail ".").2 =
      Except.error (PyError.external "missing train file") ∧
    (load_pandas_df envTestReadFail ".").2 =
      Except.error (PyError.external "missing test file") ∧
    (load_dataset envDownFail "." Frac.one none Frac.one Frac.one "b" true "c" 512).2 =
      Except.error (PyError.external "network down") ∧
    (load_dataset envPreFail "." Frac.one none Frac.one Frac.one "b" true "c" 512).2 =
      Except.error (PyError.external "no pretrained model") ∧
    (load_dataset envUnseen "." Frac.one none Frac.one Frac.one "b" true "c" 512).2 =
      Except.error (PyError.valueError "y contains previously unseen labels") := by
  refine ⟨?_, ?_, ?_, ?_, ?_, ?_, ?_⟩
  · exact c7_failures_propagate.1 envDownFail "." (PyError.external "network down") (by decide)
  · exact c7_failures_propagate.2.1 envExtractFail "." (PyError.external "archive corrupt")
      (by decide) (by decide)
  · exact c7_failures_propagate.2.2.1 envTrainReadFail "."
      (PyError.external "missing train file") (by decide) (by decide) (by decide)
  · exact c7_failures_propagate.2.2.2.1 envTestReadFail "."
      (PyError.external "missing test file") trainRowsEx (by decide) (by decide) (by decide)
      (by decide)
  · exact c7_failures_propagate.2.2.2.2.1 envDownFail "." Frac.one none Frac.one Frac.one
      "b" true "c" 512 [Event.download URL zippedFileName "."]
      (PyError.external "network down") (by decide)
  · exact c7_failures_propagate.2.2.2.2.2.1 envPreFail "." Frac.one none Frac.one Frac.one
      "b" true "c" 512 pdTraceEx trainRowsEx testRowsEx
      (PyError.external "no pretrained model") (by decide) (fun l => List.Perm.refl _)
      (by decide) (fun tx lb => rfl) (by decide) (by decide)
  · exact c7_failures_propagate.2.2.2.2.2.2 envUnseen "." Frac.one none Frac.one Frac.one
      "b" true "c" 512 pdTraceEx trainRowsEx testRowsUnseenEx [2, 1, 2, 0]
      (by decide) (by decide) (by decide) (by decide) (by decide)

/-- C9: the returned label encoder is fitted on the full unsampled
training label column — fitting happens before any sub-sampling — so its
classes are the same whatever the two sample ratios. -/
theorem c9_encoder_fit_full :
    (∀ {D : Type} (env : Env D) (p : String) (tf : Frac) (seed : Option Int)
      (r1 r2 : Frac) (mn : String) (tl : Bool) (cd : String) (ml : Nat)
      (t0 : List Event) (tdf sdf : List Row) (d1 d2 : D) (enc : LabelEncoder),
      load_pandas_df env p = (t0, Except.ok (tdf, sdf)) →
      (load_dataset env p tf seed r1 r2 mn tl cd ml).2 = Except.ok (d1, d2, enc) →
      enc = LabelEncoder.fit (tdf.map Prod.fst)) ∧
    (∀ {D : Type} (env : Env D) (p : String) (tf : Frac) (seed : Option Int)
      (r1 r2 r1' r2' : Frac) (mn : String) (tl : Bool) (cd : String) (ml : Nat)
      (t0 : List Event) (tdf sdf : List Row) (d1 d2 d1' d2' : D) (enc enc' : LabelEncoder),
      load_pandas_df env p = (t0, Except.ok (tdf, sdf)) →
      (load_dataset env p tf seed r1 r2 mn tl cd ml).2 = Except.ok (d1, d2, enc) →
      (load_dataset env p tf seed r1' r2' mn tl cd ml).2 = Except.ok (d1', d2', enc') →
      enc = enc') := by
  constructor
  · intro D env p tf seed r1 r2 mn tl cd ml t0 tdf sdf d1 d2 enc hp hok
    exact (load_dataset_ok_inv env p tf seed r1 r2 mn tl cd ml t0 tdf sdf d1 d2 enc
      hp hok).1
  · intro D env p tf seed r1 r2 r1' r2' mn tl cd ml t0 tdf sdf d1 d2 d1' d2' enc enc'
      hp hok hok'
    have h1 := (load_dataset_ok_inv env p tf seed r1 r2 mn tl cd ml t0 tdf sdf d1 d2 enc
      hp hok).1
    have h2 := (load_dataset_ok_inv env p tf seed r1' r2' mn tl cd ml t0 tdf sdf d1' d2' enc'
      hp hok').1
    rw [h1, h2]

/-- Witness for C9: a sub-sampled run (ratio 1/2) and a full run (ratio
1) both return the encoder with the sorted distinct full training
labels. -/
theorem c9_encoder_fit_full_witness :
    (⟨["biz", "news", "sport"]⟩ : LabelEncoder) =
      LabelEncoder.fit (trainRowsEx.map Prod.fst) ∧
    (⟨["biz", "news", "sport"]⟩ : LabelEncoder) = ⟨["biz", "news", "sport"]⟩ := by
  constructor
  · exact c9_encoder_fit_full.1 goodEnv "." Frac.one none ⟨1, 2⟩ Frac.one "b" true "c" 512
      pdTraceEx trainRowsEx testRowsEx 732 732 ⟨["biz", "news", "sport"]⟩
      (by decide) (by decide)
  · exact c9_encoder_fit_full.2 goodEnv "." Frac.one none ⟨1, 2⟩ Frac.one Frac.one Frac.one
      "b" true "c" 512 pdTraceEx trainRowsEx testRowsEx 732 732 952 732
      ⟨["biz", "news", "sport"]⟩ ⟨["biz", "news", "sport"]⟩
      (by decide) (by decide) (by decide)

/-- C10: when `load_dataset` raises on a negative training ratio, the
download, the archive extraction and the encoder fit have already been
performed: their events are in the trace of the failing call, so the call
is not atomic with respect to the cache directory. -/
theorem c10_side_effects_precede_validation {D : Type} (env : Env D) (p : String)
    (tf : Frac) (seed : Option Int) (r1 r2 : Frac) (mn : String) (tl : Bool)
    (cd : String) (ml : Nat) (tdf sdf : List Row)
    (hd : env.download URL zippedFileName p = .ok ())
    (he : env.extract (pathJoin p zippedFileName) p = .ok ())
    (htr : env.readCsv (pathJoin p "hindi-train.csv") tabCsvConfig = .ok tdf)
    (hte : env.readCsv (pathJoin p "hindi-test.csv") tabCsvConfig = .ok sdf)
    (hden : 0 < r1.den) (hneg : r1 < Frac.zero) :
    (load_dataset env p tf seed r1 r2 mn tl cd ml).2 =
      Except.error (PyError.valueError ("Invalid training sample ration: " ++ r1.toStr)) ∧
    Event.download URL zippedFileName p ∈
      (load_dataset env p tf seed r1 r2 mn tl cd ml).1 ∧
    Event.extractArchive (pathJoin p zippedFileName) p ∈
      (load_dataset env p tf seed r1 r2 mn tl cd ml).1 ∧
    Event.fitEncoder (tdf.map Prod.fst) ∈
      (load_dataset env p tf seed r1 r2 mn tl cd ml).1 := by
  have hp := load_pandas_df_ok env p tdf sdf hd he htr hte
  have hc1 := checkSampleFrac_neg "Setting the training sample ratio to 1.0"
    "Invalid training sample ration: " r1 hden hneg
  rw [load_dataset_check1_err env p tf seed r1 r2 mn tl cd ml _ tdf sdf _ _ hp hc1]
  refine ⟨rfl, ?_, ?_, ?_⟩ <;> simp

/-- Witness for C10 on a concrete negative ratio. -/
theorem c10_side_effects_precede_validation_witness :
    (load_dataset goodEnv "." Frac.one none ⟨-1, 2⟩ Frac.one "b" true "c" 512).2 =
      Except.error
        (PyError.valueError ("Invalid training sample ration: " ++ Frac.toStr ⟨-1, 2⟩)) ∧
    Event.download URL zippedFileName "." ∈
      (load_dataset goodEnv "." Frac.one none ⟨-1, 2⟩ Frac.one "b" true "c" 512).1 ∧
    Event.extractArchive (pathJoin "." zippedFileName) "." ∈
      (load_dataset goodEnv "." Frac.one none ⟨-1, 2⟩ Frac.one "b" true "c" 512).1 ∧
    Event.fitEncoder (trainRowsEx.map Prod.fst) ∈
      (load_dataset goodEnv "." Frac.one none ⟨-1, 2⟩ Frac.one "b" true "c" 512).1 :=
  c10_side_effects_precede_validation goodEnv "." Frac.one none ⟨-1, 2⟩ Frac.one
    "b" true "c" 512 trainRowsEx testRowsEx (by decide) (by decide) (by decide) (by decide)
    (by decide) (by decide)

end BbcHindi
